import Mathlib

/-!
Verification of the session control plane of playwright-electron-cli.

The development shallowly embeds the session descriptor store
(src/session, surfaced in src/src/cli.ts lines 413-491), the control
client (src/unnamed/part_000, first half) and the control server
(src/unnamed/part_000, second half).  File-system state is modelled as
the contents of the single descriptor file, external collaborators
(the Playwright driver, the OS process table) as explicit oracles, and
operations whose JavaScript originals can throw are modelled in the
`Except` monad so that "never raises" is expressible.
-/

namespace PwElectron

/-- JSON values as produced by JSON.parse and consumed by
JSON.stringify.  Numbers are modelled as integers, which covers every
numeric value the program itself serializes (ports, process ids) and
the descriptor files the claims are about. -/
inductive JVal where
  | null : JVal
  | bool : Bool → JVal
  | num : Int → JVal
  | str : String → JVal
  | arr : List JVal → JVal
  | obj : List (String × JVal) → JVal

/-- Lookup of a key in a JSON object field list, first match wins,
mirroring JavaScript property access on a parsed object. -/
def lookupField : List (String × JVal) → String → Option JVal
  | [], _ => none
  | (k, v) :: rest, key => if k == key then some v else lookupField rest key

/-- Property access j.key for a parsed JSON value: undefined (none)
when the value is not an object or lacks the key. -/
def getField (j : JVal) (key : String) : Option JVal :=
  match j with
  | .obj fields => lookupField fields key
  | _ => none

/-- Whether a parsed JSON object has the given key. -/
def hasField (j : JVal) (key : String) : Bool :=
  (getField j key).isSome

/-- SessionInfo, the session descriptor record (cli.ts lines 417-422):
port, appPath, pid, startedAt. -/
structure SessionInfo where
  port : Int
  appPath : String
  pid : Int
  startedAt : String
deriving Repr, DecidableEq

/-- JSON.stringify of a SessionInfo, at the level of parsed JSON
values: the object literal written by saveSession. -/
def encodeSession (s : SessionInfo) : JVal :=
  .obj [(("port"), .num s.port), (("appPath"), .str s.appPath),
        (("pid"), .num s.pid), (("startedAt"), .str s.startedAt)]

/-- Reading a SessionInfo back out of a parsed JSON value.  The source
never performs this validation (loadSession returns the parsed value
as-is); this definition only serves to state the round-trip claim
load(save(d)) == d at the record level. -/
def decodeSession (j : JVal) : Option SessionInfo :=
  match j with
  | .obj fields =>
    match lookupField fields ("port"), lookupField fields ("appPath"),
          lookupField fields ("pid"), lookupField fields ("startedAt") with
    | some (.num port), some (.str appPath), some (.num pid), some (.str startedAt) =>
      some ⟨port, appPath, pid, startedAt⟩
    | _, _, _, _ => none
  | _ => none

/-- Contents of the descriptor file: either text that parses as JSON
(represented by its parse), or text that JSON.parse rejects. -/
inductive FileContent where
  | json : JVal → FileContent
  | corrupt : FileContent

/-- The descriptor file slot: none when ~/.pw-electron/session.json is
missing. -/
abbrev SessionFile := Option FileContent

/-- fs.existsSync on the descriptor file. -/
def fileExists (fs : SessionFile) : Bool :=
  fs.isSome

/-- fs.readFileSync on the descriptor file: throws ENOENT when the
file is missing. -/
def readFileSyncE (fs : SessionFile) : Except String FileContent :=
  match fs with
  | none => .error ("ENOENT")
  | some c => .ok c

/-- JSON.parse on file contents: throws a SyntaxError on text that is
not JSON. -/
def parseJSONE (c : FileContent) : Except String JVal :=
  match c with
  | .json j => .ok j
  | .corrupt => .error ("SyntaxError: Unexpected token")

/-- fs.unlinkSync on the descriptor file: throws ENOENT when the file
is missing. -/
def unlinkSyncE (fs : SessionFile) : Except String SessionFile :=
  match fs with
  | none => .error ("ENOENT")
  | some _ => .ok none

/-- saveSession (cli.ts lines 439-442): ensures the directory and
writes JSON.stringify(session), overwriting whatever was there. -/
def saveSession (s : SessionInfo) (_fs : SessionFile) : SessionFile :=
  some (.json (encodeSession s))

/-- The value loadSession hands back for a successfully parsed JSON
value.  JavaScript null — which JSON.parse produces for the file text
null — is the very value loadSession's missing-file path returns, so
it is the absent sentinel (none); every other parse result is a
present value. -/
def asReturn (j : JVal) : Option JVal :=
  match j with
  | .null => none
  | _ => some j

/-- loadSession (cli.ts lines 447-457) with its exception behaviour
made explicit: the body guards on existsSync, reads, parses, and a
surrounding try/catch turns any failure into the null return.  A file
whose contents parse to JSON null yields the same null the absent
path returns. -/
def loadSessionE (fs : SessionFile) : Except String (Option JVal) :=
  match (if fileExists fs then Except.map asReturn ((readFileSyncE fs).bind parseJSONE)
         else .ok none) with
  | .ok v => .ok v
  | .error _ => .ok none

/-- loadSession as its callers see it: the parsed value, or null. -/
def loadSession (fs : SessionFile) : Option JVal :=
  match loadSessionE fs with
  | .ok v => v
  | .error _ => none

/-- clearSession (cli.ts lines 462-470) with its exception behaviour
made explicit: unlink guarded by existsSync, any error swallowed by
the try/catch. -/
def clearSessionE (fs : SessionFile) : Except String SessionFile :=
  match (if fileExists fs then unlinkSyncE fs else .ok fs) with
  | .ok fs2 => .ok fs2
  | .error _ => .ok fs

/-- clearSession as its callers see it. -/
def clearSession (fs : SessionFile) : SessionFile :=
  match clearSessionE fs with
  | .ok fs2 => fs2
  | .error _ => fs

/-- C7: for every well-formed session descriptor d, saving d and then
loading returns exactly the serialization of d, which decodes back to
d; and loading after a clear returns absent. -/
theorem c7_descriptor_roundtrip (d : SessionInfo) (fs fs2 : SessionFile) :
    loadSession (saveSession d fs) = some (encodeSession d)
    ∧ decodeSession (encodeSession d) = some d
    ∧ loadSession (clearSession fs2) = none := by
  refine ⟨rfl, rfl, ?_⟩
  cases fs2 <;> rfl

/-- C8: loading returns absent, not an error, when the descriptor file
is missing or fails to parse; clearing a missing file succeeds; and
neither operation ever raises, for any file state. -/
theorem c8_load_clear_never_raise :
    loadSessionE none = .ok none
    ∧ loadSessionE (some FileContent.corrupt) = .ok none
    ∧ (∀ fs : SessionFile, ∃ v, loadSessionE fs = .ok v)
    ∧ clearSessionE none = .ok none
    ∧ (∀ fs : SessionFile, ∃ fs2, clearSessionE fs = .ok fs2) := by
  refine ⟨rfl, rfl, ?_, rfl, ?_⟩
  · intro fs
    match fs with
    | none => exact ⟨none, rfl⟩
    | some (.json j) => exact ⟨asReturn j, rfl⟩
    | some .corrupt => exact ⟨none, rfl⟩
  · intro fs
    match fs with
    | none => exact ⟨none, rfl⟩
    | some _ => exact ⟨none, rfl⟩

/-- Whether a JSON value is anything other than null. -/
def notNull : JVal → Bool
  | .null => false
  | _ => true

/-- C10 counterexample: a file whose contents are the JSON text null
parses successfully and is not descriptor-shaped, yet load does not
return it as a present session: JSON.parse yields the very null the
absent path returns, so the result is absent. -/
theorem c10_load_null_is_absent :
    loadSession (some (.json JVal.null)) = none
    ∧ decodeSession JVal.null = none
    ∧ loadSession (some (.json JVal.null)) ≠ some JVal.null :=
  ⟨rfl, rfl, fun h => Option.noConfusion h⟩

/-- C10 as amended: loadSession performs no shape validation: any file
contents that parse as a JSON value other than null, even values that
are not descriptor-shaped (do not decode to a SessionInfo), are
returned as a present session; only contents parsing to JSON null
coincide with the absent return. -/
theorem c10_load_no_shape_validation (j : JVal) (hj : notNull j = true) :
    loadSession (some (.json j)) = some j := by
  cases j <;> first | rfl | exact Bool.noConfusion hj

/-- Witness for C10 at a concrete non-descriptor value: the file holds
the JSON number 5, which is non-null and not descriptor-shaped, and
load returns it as a present session. -/
theorem c10_load_no_shape_validation_witness :
    notNull (JVal.num 5) = true
    ∧ decodeSession (JVal.num 5) = none
    ∧ loadSession (some (.json (JVal.num 5))) = some (JVal.num 5) :=
  ⟨rfl, rfl, c10_load_no_shape_validation (JVal.num 5) rfl⟩

/-- The pid property of a parsed descriptor value, as isSessionAlive
reads it (session.pid on whatever loadSession returned). -/
def jvalPid (j : JVal) : Option Int :=
  match getField j ("pid") with
  | some (.num p) => some p
  | _ => none

/-- process.kill(pid, 0), the zero-effect liveness probe (cli.ts lines
475-483): throws ESRCH for a pid not in the process table (the oracle
`running` stands for the OS process table), and a type error for a
non-numeric pid. -/
def processKill0 (running : Int → Bool) (pid : Option Int) : Except String Unit :=
  match pid with
  | none => .error ("ERR_INVALID_ARG_TYPE")
  | some p => if running p then .ok () else .error ("ESRCH")

/-- isSessionAlive (cli.ts lines 475-483): probes the descriptor pid
with process.kill(pid, 0), with any throw caught and turned into
false. -/
def isSessionAlive (running : Int → Bool) (j : JVal) : Bool :=
  match processKill0 running (jvalPid j) with
  | .ok _ => true
  | .error _ => false

/-- Error text thrown by getActiveSession when no descriptor exists
(client, part_000 lines 65-70). -/
def noSessionMsg : String :=
  "No active session found. Start one with:\n  pw-electron open -p /path/to/electron/app"

/-- Error text thrown by getActiveSession when the descriptor exists
but its process is not running (client, part_000 lines 72-77). -/
def notAliveMsg : String :=
  "Session exists but the process is not running. Start a new session with:\n  pw-electron open -p /path/to/electron/app"

/-- getActiveSession (client, part_000 lines 62-80): load the
descriptor, throw the no-session message when absent, throw the
not-alive message when the liveness probe fails, otherwise return the
session. -/
def getActiveSession (running : Int → Bool) (fs : SessionFile) : Except String JVal :=
  match loadSession fs with
  | none => .error noSessionMsg
  | some j => if isSessionAlive running j then .ok j else .error notAliveMsg

/-- Outcome of one client command: either getActiveSession threw
before any network activity, or an HTTP request was issued to the
resolved session's port. -/
inductive ClientResult where
  | thrown : String → ClientResult
  | requested : String → String → JVal → ClientResult

/-- Every client command (getStatus, evalScript, takeScreenshot,
closeApp; part_000 lines 85-112) first resolves the active session
and only then issues the HTTP request for its method and path. -/
def clientCommand (running : Int → Bool) (fs : SessionFile)
    (method : String) (path : String) : ClientResult :=
  match getActiveSession running fs with
  | .error e => .thrown e
  | .ok j => .requested method path j

/-- Whether a client command outcome involved a network connection
attempt. -/
def attemptedNetwork : ClientResult → Bool
  | .thrown _ => false
  | .requested _ _ _ => true

/-- Helper: the liveness probe on a saved descriptor is exactly the
process-table check of the descriptor's pid field. -/
theorem isSessionAlive_encode (running : Int → Bool) (d : SessionInfo) :
    isSessionAlive running (encodeSession d) = running d.pid := by
  cases h : running d.pid <;>
    simp [isSessionAlive, processKill0, jvalPid, encodeSession, getField, lookupField, h]

/-- C5: with no descriptor, any client command fails with the
no-session message; with a descriptor present whose pid the liveness
probe reports as not running, it fails with the distinct not-alive
message; in both cases no network connection is attempted. -/
theorem c5_session_resolution_failures (running : Int → Bool)
    (method path : String) (d : SessionInfo) (fs0 : SessionFile) :
    (clientCommand running none method path = ClientResult.thrown noSessionMsg
      ∧ attemptedNetwork (clientCommand running none method path) = false)
    ∧ (running d.pid = false →
        clientCommand running (saveSession d fs0) method path = ClientResult.thrown notAliveMsg
        ∧ attemptedNetwork (clientCommand running (saveSession d fs0) method path) = false)
    ∧ noSessionMsg ≠ notAliveMsg := by
  refine ⟨⟨rfl, rfl⟩, ?_, by decide⟩
  intro h
  have h1 : loadSession (saveSession d fs0) = some (encodeSession d) := rfl
  constructor <;>
    simp [clientCommand, getActiveSession, h1, isSessionAlive_encode, h, attemptedNetwork]

/-- Witness for C5: a concrete dead descriptor (process table empty)
makes the client command fail with the not-alive message without any
network attempt. -/
theorem c5_session_resolution_failures_witness :
    clientCommand (fun _ => false) (saveSession ⟨9847, ("/a"), 42, ("t")⟩ none) ("GET") ("/status")
      = ClientResult.thrown notAliveMsg
    ∧ attemptedNetwork
        (clientCommand (fun _ => false) (saveSession ⟨9847, ("/a"), 42, ("t")⟩ none) ("GET") ("/status"))
      = false :=
  (c5_session_resolution_failures (fun _ => false) ("GET") ("/status")
    ⟨9847, ("/a"), 42, ("t")⟩ none).2.1 rfl

/-- Driver-reported identity of the launched application, as returned
by getAppInfo (electron-launcher.ts lines 79-93). -/
structure AppInfo where
  name : String
  version : String
  locale : String
  path : String
deriving Repr, DecidableEq

/-- The control server's module-level state (server, part_000 lines
118-128): the owned ElectronApplication handle (identified here by the
external process id of the launched application; none models null),
whether the first window handle is set, and the requested target
path. -/
structure ServerState where
  app : Option Int
  window : Bool
  appPath : String
deriving Repr, DecidableEq

/-- One HTTP response as written by sendJson: a status code and a JSON
body. -/
structure HttpResponse where
  status : Nat
  body : JVal

/-- The error response body sendJson writes on failure paths. -/
def errBody (e : String) : JVal :=
  .obj [(("error"), .str e)]

/-- handleStatus (server, part_000 lines 159-175): 500 with an error
when no app is owned; otherwise the driver identity query runs (its
outcome is the `infoRes` oracle) and on success the response is 200
with the object literal spreading getAppInfo's fields after status and
appPath. -/
def handleStatus (st : ServerState) (infoRes : Except String AppInfo) : HttpResponse :=
  match st.app with
  | none => ⟨500, errBody ("No app running")⟩
  | some _ =>
    match infoRes with
    | .ok info =>
      ⟨200, .obj [(("status"), .str ("running")), (("appPath"), .str st.appPath),
                  (("name"), .str info.name), (("version"), .str info.version),
                  (("locale"), .str info.locale), (("path"), .str info.path)]⟩
    | .error e => ⟨500, errBody e⟩

/-- JavaScript falsiness of an optional property value, deciding the
`if (!script)` guard: undefined, null, false, 0 and the empty string
are falsy. -/
def jsFalsy (v : Option JVal) : Bool :=
  match v with
  | none => true
  | some .null => true
  | some (.bool b) => !b
  | some (.num n) => n == 0
  | some (.str s) => s == ""
  | some (.arr _) => false
  | some (.obj _) => false

/-- handleEval (server, part_000 lines 180-204): 500 when no app or no
window is owned; then the body is parsed (a parse failure is caught by
the surrounding try and reported as 500); a falsy script field is
rejected with 400 before the AsyncFunction is ever built; otherwise
the script runs against the owned handles (outcome `execRes`) and the
result or the stringified failure is returned.  The Bool of the result
records whether the automation driver was invoked (the script
callable was constructed and awaited). -/
def handleEval (st : ServerState) (body : Except String JVal)
    (execRes : Except String JVal) : HttpResponse × Bool :=
  if st.app.isNone || !st.window then
    (⟨500, errBody ("No app running")⟩, false)
  else
    match body with
    | .error e => (⟨500, errBody e⟩, false)
    | .ok b =>
      if jsFalsy (getField b ("script")) then
        (⟨400, errBody ("Missing script parameter")⟩, false)
      else
        match execRes with
        | .ok v => (⟨200, .obj [(("success"), .bool true), (("result"), v)]⟩, true)
        | .error e => (⟨500, errBody e⟩, true)

/-- C4: while a process is owned, an eval request whose script field
is absent or empty is rejected with status 400 and an error naming the
missing script parameter, without invoking the automation driver; and
an eval before any process is owned yields the 500 no-app-running
condition, also without invoking the driver. -/
theorem c4_eval_missing_script_rejected (ePid : Int) (w : Bool) (ap : String)
    (b : JVal) (execRes : Except String JVal) :
    (jsFalsy (getField b ("script")) = true →
      handleEval ⟨some ePid, true, ap⟩ (.ok b) execRes
        = (⟨400, errBody ("Missing script parameter")⟩, false))
    ∧ (∀ body execRes2, handleEval ⟨none, w, ap⟩ body execRes2
        = (⟨500, errBody ("No app running")⟩, false)) := by
  constructor
  · intro h
    simp [handleEval, h]
  · intro body execRes2
    rfl

/-- Witness for C4: a concrete owned state and a body with no script
field is rejected with 400 without invoking the driver. -/
theorem c4_eval_missing_script_rejected_witness :
    handleEval ⟨some 7, true, ("/a")⟩ (.ok (JVal.obj [])) (.ok JVal.null)
      = (⟨400, errBody ("Missing script parameter")⟩, false) :=
  (c4_eval_missing_script_rejected 7 true ("/a") (JVal.obj []) (.ok JVal.null)).1 rfl

/-- Lifecycle events of one server start, in program order. -/
inductive Ev where
  | launchAttempt : Ev
  | launchFailed : Ev
  | firstWindow : Ev
  | waitLoadState : Ev
  | getInfo : Ev
  | listenStart : Int → Ev
  | registerSignalHandlers : Ev
  | registerOnCloseHandler : Ev
  | listening : Int → Ev
  | saveDescriptor : SessionInfo → Ev
  | serverExit : Int → Ev
deriving Repr, DecidableEq

/-- Result of one server start: the final descriptor file, the server
state when the process survived (none when it exited), and the event
trace. -/
structure StartOutcome where
  fsFinal : SessionFile
  state : Option ServerState
  trace : List Ev

/-- getDefaultPort (cli.ts lines 488-490). -/
def getDefaultPort : Int :=
  9847

/-- Port selection `options.port || getDefaultPort()` at the top of
startServer: absent or falsy (zero) falls back to the default. -/
def resolvePort (portOpt : Option Int) : Int :=
  match portOpt with
  | none => getDefaultPort
  | some p => if p == 0 then getDefaultPort else p

/-- startServer (server, part_000 lines 248-332).  The driver launch
outcome is the oracle `launchRes` (carrying the launched application's
external pid on success); `serverPid` is process.pid of the control
server itself; `now` the startedAt timestamp.  On success the
synchronous part runs (launch, first window, load wait, info, listen
initiation, signal and on-close handler registration) and then the
listening callback fires and writes the descriptor.  A launch failure
rejects out of startServer into the open command's catch (cli.ts),
which exits the server process with code 1, no descriptor ever
written. -/
def startServer (appPath : String) (portOpt : Option Int)
    (launchRes : Except String Int) (serverPid : Int) (now : String)
    (fs : SessionFile) : StartOutcome :=
  let port := resolvePort portOpt
  match launchRes with
  | .error _ =>
    ⟨fs, none, [Ev.launchAttempt, Ev.launchFailed, Ev.serverExit 1]⟩
  | .ok electronPid =>
    let descriptor : SessionInfo := ⟨port, appPath, serverPid, now⟩
    ⟨saveSession descriptor fs,
     some ⟨some electronPid, true, appPath⟩,
     [Ev.launchAttempt, Ev.firstWindow, Ev.waitLoadState, Ev.getInfo,
      Ev.listenStart port, Ev.registerSignalHandlers, Ev.registerOnCloseHandler,
      Ev.listening port, Ev.saveDescriptor descriptor]⟩

/-- Index of the first event satisfying a predicate. -/
def firstIdx {α : Type} (p : α → Bool) : List α → Option Nat
  | [] => none
  | x :: xs => if p x then some 0 else Option.map (fun n => n + 1) (firstIdx p xs)

/-- Whether an event is the control endpoint becoming bound and
listening. -/
def isListeningEv : Ev → Bool
  | .listening _ => true
  | _ => false

/-- Whether an event is the descriptor write. -/
def isSaveEv : Ev → Bool
  | .saveDescriptor _ => true
  | _ => false

/-- C2: on every successful start the descriptor write occurs strictly
after the listening event begins serving; on a launch failure the run
contains no descriptor write, leaves the descriptor file untouched,
and ends with the server process exiting, so no reachable state pairs
a persisted descriptor with a failed launch. -/
theorem c2_descriptor_only_after_serving (appPath : String) (portOpt : Option Int)
    (serverPid : Int) (now : String) (fs : SessionFile) :
    (∀ electronPid : Int,
      firstIdx isListeningEv (startServer appPath portOpt (.ok electronPid) serverPid now fs).trace
          = some 7
        ∧ firstIdx isSaveEv (startServer appPath portOpt (.ok electronPid) serverPid now fs).trace
          = some 8)
    ∧ (∀ err : String,
      firstIdx isSaveEv (startServer appPath portOpt (.error err) serverPid now fs).trace = none
        ∧ (startServer appPath portOpt (.error err) serverPid now fs).fsFinal = fs
        ∧ (startServer appPath portOpt (.error err) serverPid now fs).state = none
        ∧ (startServer appPath portOpt (.error err) serverPid now fs).trace.getLast?
            = some (Ev.serverExit 1)) := by
  exact ⟨fun ePid => ⟨rfl, rfl⟩, fun err => ⟨rfl, rfl, rfl, rfl⟩⟩

/-- C9: the pid persisted by a successful start is the control
server's own process id, independent of which external process the
driver launched, and the client liveness probe on that descriptor
checks exactly whether the control server process is running. -/
theorem c9_descriptor_pid_is_server_pid (appPath : String) (portOpt : Option Int)
    (electronPid otherElectronPid serverPid : Int) (now : String)
    (fs : SessionFile) (running : Int → Bool) :
    (startServer appPath portOpt (.ok electronPid) serverPid now fs).fsFinal
        = some (.json (encodeSession ⟨resolvePort portOpt, appPath, serverPid, now⟩))
    ∧ (SessionInfo.pid ⟨resolvePort portOpt, appPath, serverPid, now⟩ = serverPid)
    ∧ (startServer appPath portOpt (.ok electronPid) serverPid now fs).fsFinal
        = (startServer appPath portOpt (.ok otherElectronPid) serverPid now fs).fsFinal
    ∧ isSessionAlive running (encodeSession ⟨resolvePort portOpt, appPath, serverPid, now⟩)
        = running serverPid := by
  exact ⟨rfl, rfl, rfl, isSessionAlive_encode running ⟨resolvePort portOpt, appPath, serverPid, now⟩⟩

/-- Teardown side effects, in the order the closing code performs
them. -/
inductive TearEv where
  | ackSuccess : TearEv
  | driverClose : TearEv
  | descriptorCleared : TearEv
  | stopListening : TearEv
  | processExit : Int → TearEv
deriving Repr, DecidableEq

/-- The 200 acknowledgment body handleClose writes before any
teardown. -/
def closeResponse : HttpResponse :=
  ⟨200, .obj [(("success"), .bool true), (("message"), .str ("Closing app"))]⟩

/-- handleClose (server, part_000 lines 234-243): sendJson 200 first,
then close the driver process when one is owned, clear the descriptor,
close the server, exit the process.  The result carries the response,
the descriptor file afterwards, and the ordered side-effect trace. -/
def handleClose (st : ServerState) (fs : SessionFile) :
    HttpResponse × SessionFile × List TearEv :=
  let closeTrace : List TearEv :=
    match st.app with
    | some _ => [TearEv.driverClose]
    | none => []
  (closeResponse, clearSession fs,
   [TearEv.ackSuccess] ++ closeTrace
     ++ [TearEv.descriptorCleared, TearEv.stopListening, TearEv.processExit 0])

/-- Whether a teardown event is the acknowledgment write. -/
def isAckEv : TearEv → Bool
  | .ackSuccess => true
  | _ => false

/-- Whether a teardown event is the driver close request. -/
def isDriverCloseEv : TearEv → Bool
  | .driverClose => true
  | _ => false

/-- Whether a teardown event is the descriptor clear. -/
def isClearEv : TearEv → Bool
  | .descriptorCleared => true
  | _ => false

/-- Whether a teardown event is the server ceasing to accept
connections. -/
def isStopEv : TearEv → Bool
  | .stopListening => true
  | _ => false

/-- Whether a teardown event is the server process terminating. -/
def isExitEv : TearEv → Bool
  | .processExit _ => true
  | _ => false

/-- C6: for a close request against a state owning a process, the 200
acknowledgment with success and message fields is the first event,
and the teardown side effects follow in order: driver close,
descriptor clear, stop accepting connections, server process exit;
afterwards no descriptor is loadable. -/
theorem c6_close_ack_before_teardown (ePid : Int) (w : Bool) (ap : String)
    (fs : SessionFile) :
    (handleClose ⟨some ePid, w, ap⟩ fs).1.status = 200
    ∧ hasField (handleClose ⟨some ePid, w, ap⟩ fs).1.body ("success") = true
    ∧ hasField (handleClose ⟨some ePid, w, ap⟩ fs).1.body ("message") = true
    ∧ firstIdx isAckEv (handleClose ⟨some ePid, w, ap⟩ fs).2.2 = some 0
    ∧ firstIdx isDriverCloseEv (handleClose ⟨some ePid, w, ap⟩ fs).2.2 = some 1
    ∧ firstIdx isClearEv (handleClose ⟨some ePid, w, ap⟩ fs).2.2 = some 2
    ∧ firstIdx isStopEv (handleClose ⟨some ePid, w, ap⟩ fs).2.2 = some 3
    ∧ firstIdx isExitEv (handleClose ⟨some ePid, w, ap⟩ fs).2.2 = some 4
    ∧ loadSession (handleClose ⟨some ePid, w, ap⟩ fs).2.1 = none := by
  refine ⟨rfl, rfl, rfl, rfl, rfl, rfl, rfl, rfl, ?_⟩
  cases fs <;> rfl

/-- Resources touched by the closing logic: whether the driver process
has been asked to close, the descriptor file, whether the server has
stopped accepting connections, and whether process exit was
requested. -/
structure Resources where
  driverClosed : Bool
  fs : SessionFile
  serverClosed : Bool
  exited : Bool

/-- One run of the cleanup sequence shared by handleClose, the
interrupt/terminate signal handlers and the unsolicited app-close
handler (server, part_000 lines 234-243 and 312-331): close the
driver process when one is owned (the driver's close resolves when
already closed, per its contract as an opaque collaborator), clear
the descriptor through the guarded, catch-wrapped clearSession, stop
the server, request process exit.  An error anywhere would surface as
the Except error. -/
def cleanupRun (st : ServerState) (r : Resources) : Except String Resources :=
  let r1 : Resources :=
    match st.app with
    | some _ => { r with driverClosed := true }
    | none => r
  match clearSessionE r1.fs with
  | .ok fs2 => .ok ⟨r1.driverClosed, fs2, true, true⟩
  | .error e => .error e

/-- The unsolicited app-close handler's cleanup (server, part_000
lines 326-331), which skips the driver close: clear the descriptor,
stop the server, exit. -/
def onCloseCleanup (r : Resources) : Except String Resources :=
  match clearSessionE r.fs with
  | .ok fs2 => .ok ⟨r.driverClosed, fs2, true, true⟩
  | .error e => .error e

/-- C3: the closing logic is idempotent under multiple triggers: a
first cleanup run succeeds and leaves the descriptor cleared, and a
second run of either the explicit-close/signal cleanup or the
process-exit-notification cleanup on the resulting state succeeds
without raising and changes nothing, so the descriptor ends cleared
exactly once and no resource is freed twice. -/
theorem c3_cleanup_idempotent (st : ServerState) (r : Resources) :
    ∃ r1 : Resources,
      cleanupRun st r = Except.ok r1
      ∧ r1.fs = none
      ∧ cleanupRun st r1 = Except.ok r1
      ∧ onCloseCleanup r1 = Except.ok r1 := by
  obtain ⟨appOpt, w, ap⟩ := st
  obtain ⟨dc, fs, sc, ex⟩ := r
  cases appOpt <;> cases fs <;> exact ⟨_, rfl, rfl, rfl, rfl⟩

/-- C1 counterexample: at a concrete Ready/Serving state for target
path /tmp/target with a successful identity query, the status body
carries the target path under the key appPath; it has no field named
targetPath. -/
theorem c1_status_no_targetPath_field :
    (handleStatus ⟨some 101, true, ("/tmp/target")⟩
        (.ok ⟨("MyApp"), ("1.0.0"), ("en-US"), ("/apps/myapp")⟩)).status = 200
    ∧ hasField (handleStatus ⟨some 101, true, ("/tmp/target")⟩
        (.ok ⟨("MyApp"), ("1.0.0"), ("en-US"), ("/apps/myapp")⟩)).body ("targetPath") = false
    ∧ hasField (handleStatus ⟨some 101, true, ("/tmp/target")⟩
        (.ok ⟨("MyApp"), ("1.0.0"), ("en-US"), ("/apps/myapp")⟩)).body ("appPath") = true := by
  exact ⟨rfl, rfl, rfl⟩

/-- C1 as amended: for a session started for target path T (the state
a successful startServer reaches), a status call whose driver identity
query succeeds returns 200 with a body containing the fields status,
appPath (the wire name of the spec's targetPath), name, version,
locale and path, where the appPath field equals T. -/
theorem c1_status_returns_target_path (appPath : String) (portOpt : Option Int)
    (electronPid serverPid : Int) (now : String) (fs : SessionFile) (info : AppInfo) :
    (startServer appPath portOpt (.ok electronPid) serverPid now fs).state
        = some ⟨some electronPid, true, appPath⟩
    ∧ (handleStatus ⟨some electronPid, true, appPath⟩ (.ok info)).status = 200
    ∧ hasField (handleStatus ⟨some electronPid, true, appPath⟩ (.ok info)).body ("status") = true
    ∧ hasField (handleStatus ⟨some electronPid, true, appPath⟩ (.ok info)).body ("appPath") = true
    ∧ hasField (handleStatus ⟨some electronPid, true, appPath⟩ (.ok info)).body ("name") = true
    ∧ hasField (handleStatus ⟨some electronPid, true, appPath⟩ (.ok info)).body ("version") = true
    ∧ hasField (handleStatus ⟨some electronPid, true, appPath⟩ (.ok info)).body ("locale") = true
    ∧ hasField (handleStatus ⟨some electronPid, true, appPath⟩ (.ok info)).body ("path") = true
    ∧ getField (handleStatus ⟨some electronPid, true, appPath⟩ (.ok info)).body ("appPath")
        = some (JVal.str appPath) := by
  exact ⟨rfl, rfl, rfl, rfl, rfl, rfl, rfl, rfl, rfl⟩

end PwElectron
